import Mathlib

/-!
# Verification of the KMA grid Lambert-conformal-conic projection

Shallow embedding of `src/kma_grid.rs` over the real numbers.

Modelling conventions:
* Rust `f64` values and arithmetic are modelled by `ℝ` (exact real arithmetic);
  the decimal literals of the source are carried over exactly as rationals.
* `f64::powf` is modelled by `Real.rpow` (written `^` with a real exponent).
* `f64::atan2(self = y, other = x)` is modelled by the complex argument of
  `x + y·i` (`atan2` below), which agrees with IEEE `atan2` away from signed
  zeros and has range `(-π, π]`.
* `f64::round` (round half away from zero) is modelled by `rustRound`.
* the unchecked narrowing cast `as u8` applied to a rounded value is modelled
  by `castU8`, Rust saturating-cast semantics: values below 0 clamp to 0 and
  values above 255 clamp to 255 (the real-number model has no NaN).
* the `u8` subtractions `self.x - REFERENCE_X` and `self.y - REFERENCE_Y`
  in `to_gcs` are modelled by `u8Sub`, the release-mode wrapping subtraction
  modulo 256 (debug builds panic on underflow instead).
-/

open Real

/-- `const GRID_LENGTH: f64 = 5.0; // km` -/
def GRID_LENGTH : ℝ := 5

/-- `const EARTH_RADIUS_IN_GRID: f64 = 6371.00877 / GRID_LENGTH;` -/
noncomputable def EARTH_RADIUS_IN_GRID : ℝ := 6371.00877 / GRID_LENGTH

/-- `const DEGREE_TO_RADIAN: f64 = 0.017453293; // pi / 180` -/
def DEGREE_TO_RADIAN : ℝ := 0.017453293

/-- `const RADIAN_TO_DEGREE: f64 = 57.29577951; // 180 / pi` -/
def RADIAN_TO_DEGREE : ℝ := 57.29577951

/-- `const STANDARD_PARALLEL1: f64 = 30.0 * DEGREE_TO_RADIAN;` -/
def STANDARD_PARALLEL1 : ℝ := 30 * DEGREE_TO_RADIAN

/-- `const STANDARD_PARALLEL2: f64 = 60.0 * DEGREE_TO_RADIAN;` -/
def STANDARD_PARALLEL2 : ℝ := 60 * DEGREE_TO_RADIAN

/-- `const REFERENCE_LONGITUDE: f64 = 126.0 * DEGREE_TO_RADIAN;` -/
def REFERENCE_LONGITUDE : ℝ := 126 * DEGREE_TO_RADIAN

/-- `const REFERENCE_LATITUDE: f64 = 38.0 * DEGREE_TO_RADIAN;` -/
def REFERENCE_LATITUDE : ℝ := 38 * DEGREE_TO_RADIAN

/-- `const REFERENCE_X: u8 = 43;` -/
def REFERENCE_X : ℕ := 43

/-- `const REFERENCE_Y: u8 = 136;` -/
def REFERENCE_Y : ℕ := 136

/-- `pub struct KmaGrid { x: u8, y: u8 }`; the `u8` components are modelled
as naturals (the saturating cast `castU8` keeps them in `[0, 255]`). -/
structure KmaGrid where
  x : ℕ
  y : ℕ
deriving DecidableEq

/-- `struct LccConstants { n: f64, f: f64, rho_zero: f64 }` -/
structure LccConstants where
  n : ℝ
  f : ℝ
  rho_zero : ℝ

/-- The `let n = ...` binding of `LccConstants::get_constants`. -/
noncomputable def lccN : ℝ :=
  Real.log (Real.cos STANDARD_PARALLEL1 / Real.cos STANDARD_PARALLEL2) /
    Real.log (Real.tan (Real.pi * 0.25 + 0.5 * STANDARD_PARALLEL2) /
      Real.tan (Real.pi * 0.25 + 0.5 * STANDARD_PARALLEL1))

/-- The `let f = ...` binding of `LccConstants::get_constants`. -/
noncomputable def lccF : ℝ :=
  Real.tan (Real.pi * 0.25 + 0.5 * STANDARD_PARALLEL1) ^ lccN *
    Real.cos STANDARD_PARALLEL1 / lccN

/-- The `let rho_zero = ...` binding of `LccConstants::get_constants`. -/
noncomputable def lccRhoZero : ℝ :=
  EARTH_RADIUS_IN_GRID * lccF /
    Real.tan (Real.pi * 0.25 + 0.5 * REFERENCE_LATITUDE) ^ lccN

/-- `LccConstants::get_constants`. -/
noncomputable def LccConstants.get_constants : LccConstants :=
  ⟨lccN, lccF, lccRhoZero⟩

/-- Rust `f64::round`: round half away from zero, yielding an integer. -/
noncomputable def rustRound (v : ℝ) : ℤ :=
  if 0 ≤ v then ⌊v + 1 / 2⌋ else -⌊-v + 1 / 2⌋

/-- Rust saturating cast `as u8` applied to an already-rounded (integral)
value: clamp into `[0, 255]`. -/
def castU8 (z : ℤ) : ℕ := min z.toNat 255

/-- Release-mode wrapping `u8` subtraction `a - b` (for `a, b ≤ 255`);
a debug build panics when `a < b` instead of wrapping. -/
def u8Sub (a b : ℕ) : ℕ := (a + 256 - b) % 256

/-- The `let rho = ...` binding of `KmaGrid::from_gcs`, as a function of
the latitude argument in degrees. -/
noncomputable def rhoOf (latitude : ℝ) : ℝ :=
  EARTH_RADIUS_IN_GRID * lccF /
    Real.tan (Real.pi * 0.25 + 0.5 * latitude * DEGREE_TO_RADIAN) ^ lccN

/-- The `let raw_theta = ...` binding inside `KmaGrid::from_gcs`. -/
noncomputable def rawTheta (longitude : ℝ) : ℝ :=
  longitude * DEGREE_TO_RADIAN - REFERENCE_LONGITUDE

/-- The `let theta = { ... }` block of `KmaGrid::from_gcs`: single-step
normalization of `raw_theta` by at most one `± 2π`. -/
noncomputable def thetaOf (longitude : ℝ) : ℝ :=
  if rawTheta longitude > Real.pi then rawTheta longitude - 2 * Real.pi
  else if rawTheta longitude < -Real.pi then rawTheta longitude + 2 * Real.pi
  else rawTheta longitude

/-- `KmaGrid::from_gcs(longitude, latitude)`. -/
noncomputable def KmaGrid.from_gcs (longitude latitude : ℝ) : KmaGrid :=
  let rho := rhoOf latitude
  let theta := thetaOf longitude
  let x := castU8 (rustRound (rho * Real.sin (theta * lccN) + (REFERENCE_X : ℝ)))
  let y := castU8 (rustRound (lccRhoZero - rho * Real.cos (theta * lccN) + (REFERENCE_Y : ℝ)))
  ⟨x, y⟩

/-- `f64::atan2`: `y.atan2(x)` is the argument of the complex number
`x + y·i`, in `(-π, π]`. -/
noncomputable def atan2 (y x : ℝ) : ℝ := Complex.arg ⟨x, y⟩

/-- `KmaGrid::to_gcs(self)`. -/
noncomputable def KmaGrid.to_gcs (g : KmaGrid) : ℝ × ℝ :=
  let xn : ℝ := (u8Sub g.x REFERENCE_X : ℕ)
  let yn : ℝ := lccRhoZero - ((u8Sub g.y REFERENCE_Y : ℕ) : ℝ)
  let ra := Real.sqrt (xn ^ 2 + yn ^ 2)
  let latitude_radian :=
    2 * Real.arctan ((EARTH_RADIUS_IN_GRID * lccF / ra) ^ ((1 : ℝ) / lccN)) - Real.pi * 0.5
  let theta := if |lccN| = 0 then 0 else if |yn| = 0 then Real.pi * 0.5 else atan2 yn xn
  let longitude_radian := theta / lccN + REFERENCE_LONGITUDE
  (longitude_radian * RADIAN_TO_DEGREE, latitude_radian * RADIAN_TO_DEGREE)

/-! ## Basic facts about the fixed constants -/

lemma DTR_pos : 0 < DEGREE_TO_RADIAN := by norm_num [DEGREE_TO_RADIAN]

lemma DTR_ne : DEGREE_TO_RADIAN ≠ 0 := ne_of_gt DTR_pos

/-! ## The reference point maps to the reference cell -/

lemma rawTheta_ref : rawTheta 126 = 0 := by
  unfold rawTheta REFERENCE_LONGITUDE
  ring

lemma thetaOf_ref : thetaOf 126 = 0 := by
  unfold thetaOf
  rw [rawTheta_ref]
  rw [if_neg (by nlinarith [Real.pi_pos]), if_neg (by nlinarith [Real.pi_pos])]

lemma rhoOf_ref : rhoOf 38 = lccRhoZero := by
  unfold rhoOf lccRhoZero REFERENCE_LATITUDE
  rw [show Real.pi * 0.25 + 0.5 * (38 : ℝ) * DEGREE_TO_RADIAN
      = Real.pi * 0.25 + 0.5 * ((38 : ℝ) * DEGREE_TO_RADIAN) from by ring]

lemma rustRound_natCast (m : ℕ) : rustRound (m : ℝ) = m := by
  unfold rustRound
  rw [if_pos (by positivity)]
  rw [show ((m : ℝ) + 1 / 2) = ((m : ℤ) : ℝ) + 1 / 2 by push_cast; ring]
  rw [Int.floor_int_add]
  norm_num

lemma from_gcs_eval (longitude latitude : ℝ) :
    KmaGrid.from_gcs longitude latitude =
      ⟨castU8 (rustRound (rhoOf latitude * Real.sin (thetaOf longitude * lccN) +
          (REFERENCE_X : ℝ))),
        castU8 (rustRound (lccRhoZero -
          rhoOf latitude * Real.cos (thetaOf longitude * lccN) + (REFERENCE_Y : ℝ)))⟩ := rfl

lemma from_gcs_ref : KmaGrid.from_gcs 126 38 = ⟨43, 136⟩ := by
  rw [from_gcs_eval]
  rw [thetaOf_ref, rhoOf_ref, zero_mul, Real.sin_zero, Real.cos_zero]
  have hx : lccRhoZero * 0 + ((REFERENCE_X : ℕ) : ℝ) = ((43 : ℕ) : ℝ) := by
    norm_num [REFERENCE_X]
  have hy : lccRhoZero - lccRhoZero * 1 + ((REFERENCE_Y : ℕ) : ℝ) = ((136 : ℕ) : ℝ) := by
    norm_num [REFERENCE_Y]
  rw [hx, hy, rustRound_natCast, rustRound_natCast]
  decide

/-! ## Interval bounds for the trigonometric values of the fixed angles

All angle arguments below (`15 * DTR`, `30 * DTR`, `19 * DTR`, ...) lie in
`[0, 1]`, so the degree-4 Taylor bounds `Real.cos_bound` / `Real.sin_bound`
pin them to rational intervals. -/

lemma cos_between {x lo hi : ℝ} (hx0 : 0 ≤ x) (hx1 : x ≤ 1)
    (h1 : lo ≤ 1 - x ^ 2 / 2 - x ^ 4 * (5 / 96))
    (h2 : 1 - x ^ 2 / 2 + x ^ 4 * (5 / 96) ≤ hi) :
    lo ≤ Real.cos x ∧ Real.cos x ≤ hi := by
  have hxa : |x| = x := abs_of_nonneg hx0
  have h := Real.cos_bound (show |x| ≤ 1 by rw [hxa]; exact hx1)
  rw [hxa, abs_sub_le_iff] at h
  exact ⟨by nlinarith [h.1, h.2], by nlinarith [h.1, h.2]⟩

lemma sin_between {x lo hi : ℝ} (hx0 : 0 ≤ x) (hx1 : x ≤ 1)
    (h1 : lo ≤ x - x ^ 3 / 6 - x ^ 4 * (5 / 96))
    (h2 : x - x ^ 3 / 6 + x ^ 4 * (5 / 96) ≤ hi) :
    lo ≤ Real.sin x ∧ Real.sin x ≤ hi := by
  have hxa : |x| = x := abs_of_nonneg hx0
  have h := Real.sin_bound (show |x| ≤ 1 by rw [hxa]; exact hx1)
  rw [hxa, abs_sub_le_iff] at h
  exact ⟨by nlinarith [h.1, h.2], by nlinarith [h.1, h.2]⟩

lemma cos_h15_bounds :
    0.9654 ≤ Real.cos (15 * DEGREE_TO_RADIAN) ∧ Real.cos (15 * DEGREE_TO_RADIAN) ≤ 0.96598 := by
  apply cos_between <;> norm_num [DEGREE_TO_RADIAN]

lemma sin_h15_bounds :
    0.2585 ≤ Real.sin (15 * DEGREE_TO_RADIAN) ∧ Real.sin (15 * DEGREE_TO_RADIAN) ≤ 0.2591 := by
  apply sin_between <;> norm_num [DEGREE_TO_RADIAN]

lemma cos_SP1_bounds :
    0.859 ≤ Real.cos (30 * DEGREE_TO_RADIAN) ∧ Real.cos (30 * DEGREE_TO_RADIAN) ≤ 0.8669 := by
  apply cos_between <;> norm_num [DEGREE_TO_RADIAN]

lemma sin_SP1_bounds :
    0.4957 ≤ Real.sin (30 * DEGREE_TO_RADIAN) ∧ Real.sin (30 * DEGREE_TO_RADIAN) ≤ 0.5036 := by
  apply sin_between <;> norm_num [DEGREE_TO_RADIAN]

lemma cos_SP2_bounds :
    0.4757 ≤ Real.cos (60 * DEGREE_TO_RADIAN) ∧ Real.cos (60 * DEGREE_TO_RADIAN) ≤ 0.5031 := by
  have h2 : (60 : ℝ) * DEGREE_TO_RADIAN = 2 * (30 * DEGREE_TO_RADIAN) := by ring
  rw [h2, Real.cos_two_mul]
  have := cos_SP1_bounds
  exact ⟨by nlinarith [this.1, this.2], by nlinarith [this.1, this.2]⟩

/-- `tan (π/4 + h)` in terms of `cos h` and `sin h`; the `√2/2` factors
coming from the addition formulas cancel. -/
lemma tan_quarter_add (h : ℝ) :
    Real.tan (Real.pi / 4 + h) =
      (Real.cos h + Real.sin h) / (Real.cos h - Real.sin h) := by
  have hs : Real.sqrt 2 / 2 ≠ 0 := by positivity
  have e1 : Real.sin (Real.pi / 4 + h) = Real.sqrt 2 / 2 * (Real.cos h + Real.sin h) := by
    rw [Real.sin_add, Real.sin_pi_div_four, Real.cos_pi_div_four]; ring
  have e2 : Real.cos (Real.pi / 4 + h) = Real.sqrt 2 / 2 * (Real.cos h - Real.sin h) := by
    rw [Real.cos_add, Real.sin_pi_div_four, Real.cos_pi_div_four]; ring
  rw [Real.tan_eq_sin_div_cos, e1, e2, mul_div_mul_left _ _ hs]

lemma tanA1_bounds :
    1.7299 ≤ Real.tan (Real.pi / 4 + 15 * DEGREE_TO_RADIAN) ∧
      Real.tan (Real.pi / 4 + 15 * DEGREE_TO_RADIAN) ≤ 1.7347 := by
  rw [tan_quarter_add]
  have hc := cos_h15_bounds
  have hs := sin_h15_bounds
  have hden : (0.7063 : ℝ) ≤ Real.cos (15 * DEGREE_TO_RADIAN) - Real.sin (15 * DEGREE_TO_RADIAN) := by
    nlinarith [hc.1, hs.2]
  constructor
  · rw [le_div_iff₀ (by linarith)]
    nlinarith [hc.1, hs.1, hc.2, hs.2]
  · rw [div_le_iff₀ (by linarith)]
    nlinarith [hc.1, hs.1, hc.2, hs.2]

lemma tanA2_bounds :
    3.6495 ≤ Real.tan (Real.pi / 4 + 30 * DEGREE_TO_RADIAN) ∧
      Real.tan (Real.pi / 4 + 30 * DEGREE_TO_RADIAN) ≤ 3.8563 := by
  rw [tan_quarter_add]
  have hc := cos_SP1_bounds
  have hs := sin_SP1_bounds
  have hden : (0.3554 : ℝ) ≤ Real.cos (30 * DEGREE_TO_RADIAN) - Real.sin (30 * DEGREE_TO_RADIAN) := by
    nlinarith [hc.1, hs.2]
  constructor
  · rw [le_div_iff₀ (by linarith)]
    nlinarith [hc.1, hs.1, hc.2, hs.2]
  · rw [div_le_iff₀ (by linarith)]
    nlinarith [hc.1, hs.1, hc.2, hs.2]

/-! ## Bounds for the cone constant `n` -/

/-- The cosine ratio `cos SP1 / cos SP2` appearing in the numerator of `n`. -/
noncomputable def ratioCos : ℝ :=
  Real.cos (30 * DEGREE_TO_RADIAN) / Real.cos (60 * DEGREE_TO_RADIAN)

/-- The tangent ratio `tan(π/4 + SP2/2) / tan(π/4 + SP1/2)` appearing in the
denominator of `n`. -/
noncomputable def ratioTan : ℝ :=
  Real.tan (Real.pi / 4 + 30 * DEGREE_TO_RADIAN) /
    Real.tan (Real.pi / 4 + 15 * DEGREE_TO_RADIAN)

lemma ratioCos_bounds : 1.7074 ≤ ratioCos ∧ ratioCos ≤ 1.8225 := by
  unfold ratioCos
  have hc1 := cos_SP1_bounds
  have hc2 := cos_SP2_bounds
  constructor
  · rw [le_div_iff₀ (by linarith [hc2.1])]
    nlinarith [hc1.1, hc2.2]
  · rw [div_le_iff₀ (by linarith [hc2.1])]
    nlinarith [hc1.2, hc2.1]

lemma ratioTan_bounds : 2.1038 ≤ ratioTan ∧ ratioTan ≤ 2.2293 := by
  unfold ratioTan
  have h1 := tanA1_bounds
  have h2 := tanA2_bounds
  constructor
  · rw [le_div_iff₀ (by linarith [h1.1])]
    nlinarith [h2.1, h1.2]
  · rw [div_le_iff₀ (by linarith [h1.1])]
    nlinarith [h2.2, h1.1]

lemma lccN_eq : lccN = Real.log ratioCos / Real.log ratioTan := by
  unfold lccN ratioCos ratioTan STANDARD_PARALLEL1 STANDARD_PARALLEL2
  rw [show Real.pi * 0.25 + 0.5 * (60 * DEGREE_TO_RADIAN)
      = Real.pi / 4 + 30 * DEGREE_TO_RADIAN from by
        rw [show (0.25 : ℝ) = 1 / 4 from by norm_num, show (0.5 : ℝ) = 1 / 2 from by norm_num]
        ring]
  rw [show Real.pi * 0.25 + 0.5 * (30 * DEGREE_TO_RADIAN)
      = Real.pi / 4 + 15 * DEGREE_TO_RADIAN from by
        rw [show (0.25 : ℝ) = 1 / 4 from by norm_num, show (0.5 : ℝ) = 1 / 2 from by norm_num]
        ring]

lemma log_ratioCos_pos : 0 < Real.log ratioCos :=
  Real.log_pos (by linarith [ratioCos_bounds.1])

lemma log_ratioTan_pos : 0 < Real.log ratioTan :=
  Real.log_pos (by linarith [ratioTan_bounds.1])

lemma lccN_pos : 0 < lccN := by
  rw [lccN_eq]
  exact div_pos log_ratioCos_pos log_ratioTan_pos

lemma lccN_ne : lccN ≠ 0 := ne_of_gt lccN_pos

lemma lccN_lt_one : lccN < 1 := by
  rw [lccN_eq, div_lt_one log_ratioTan_pos]
  apply Real.log_lt_log (by linarith [ratioCos_bounds.1])
  linarith [ratioCos_bounds.2, ratioTan_bounds.1]

lemma half_lt_lccN : 1 / 2 < lccN := by
  rw [lccN_eq, lt_div_iff₀ log_ratioTan_pos]
  have hsq : Real.log (ratioTan) < Real.log (ratioCos ^ 2) := by
    apply Real.log_lt_log (by linarith [ratioTan_bounds.1])
    nlinarith [ratioCos_bounds.1, ratioTan_bounds.2]
  rw [Real.log_pow] at hsq
  push_cast at hsq
  linarith

/-! ## Positivity of the derived constants -/

lemma ER_pos : 0 < EARTH_RADIUS_IN_GRID := by
  norm_num [EARTH_RADIUS_IN_GRID, GRID_LENGTH]

/-- Rewriting `π * 0.25 + 0.5 * a` into the `π/4 + a/2` form used by the
spec formulas and the interval lemmas. -/
lemma quarter_half (a : ℝ) : Real.pi * 0.25 + 0.5 * a = Real.pi / 4 + a / 2 := by
  rw [show (0.25 : ℝ) = 1 / 4 from by norm_num, show (0.5 : ℝ) = 1 / 2 from by norm_num]
  ring

lemma angleA1_eq :
    Real.pi * 0.25 + 0.5 * STANDARD_PARALLEL1 = Real.pi / 4 + 15 * DEGREE_TO_RADIAN := by
  rw [quarter_half]
  unfold STANDARD_PARALLEL1
  ring

lemma tanA1_pos : 0 < Real.tan (Real.pi / 4 + 15 * DEGREE_TO_RADIAN) := by
  linarith [tanA1_bounds.1]

lemma cos_SP1_pos : 0 < Real.cos (30 * DEGREE_TO_RADIAN) := by
  linarith [cos_SP1_bounds.1]

lemma lccF_pos : 0 < lccF := by
  unfold lccF
  rw [angleA1_eq]
  unfold STANDARD_PARALLEL1
  exact div_pos (mul_pos (Real.rpow_pos_of_pos tanA1_pos _) cos_SP1_pos) lccN_pos

lemma tanRef_pos : 0 < Real.tan (Real.pi * 0.25 + 0.5 * REFERENCE_LATITUDE) := by
  rw [quarter_half]
  apply Real.tan_pos_of_pos_of_lt_pi_div_two
  · have := Real.pi_pos
    norm_num [REFERENCE_LATITUDE, DEGREE_TO_RADIAN]
    nlinarith
  · norm_num [REFERENCE_LATITUDE, DEGREE_TO_RADIAN]
    nlinarith [Real.pi_gt_d6]

lemma lccRhoZero_pos : 0 < lccRhoZero := by
  unfold lccRhoZero
  exact div_pos (mul_pos ER_pos lccF_pos) (Real.rpow_pos_of_pos tanRef_pos _)

/-! ## C1 -/

/-- C1: forward projection of the reference point is exact:
`from_gcs(126.0, 38.0)` returns the grid coordinate `(43, 136)`, as integer
equality. -/
theorem C1_forward_reference_exact : KmaGrid.from_gcs 126 38 = ⟨43, 136⟩ :=
  from_gcs_ref

/-! ## C3: the `u8` subtractions in `to_gcs` are not signed-safe -/

/-- C3: the claim is false on the code: `to_gcs` computes
`(self.x - REFERENCE_X) as f64` with `u8` operands, so for `x = 0 < 43` the
subtraction does not yield the signed difference `-43`: it wraps to `213` in a
release build (and panics in a debug build).  This theorem evaluates the
embedded wrapping subtraction at the failing input. -/
theorem C3_unsigned_subtraction_wraps :
    u8Sub 0 REFERENCE_X = 213 ∧ (u8Sub 0 REFERENCE_X : ℤ) ≠ 0 - (REFERENCE_X : ℤ) := by
  decide

/-! ## C4: the radian conversion constant is not exactly pi/180 -/

/-- The spec formula (§4.1) for the cone constant `n`, written exactly as in
the spec (`π/4 + SP/2`). -/
noncomputable def specN : ℝ :=
  Real.log (Real.cos STANDARD_PARALLEL1 / Real.cos STANDARD_PARALLEL2) /
    Real.log (Real.tan (Real.pi / 4 + STANDARD_PARALLEL2 / 2) /
      Real.tan (Real.pi / 4 + STANDARD_PARALLEL1 / 2))

/-- The spec formula (§4.1) for the scale factor `f`. -/
noncomputable def specF : ℝ :=
  Real.tan (Real.pi / 4 + STANDARD_PARALLEL1 / 2) ^ specN *
    Real.cos STANDARD_PARALLEL1 / specN

/-- The spec formula (§4.1) for the reference radius `rho_zero`. -/
noncomputable def specRhoZero : ℝ :=
  EARTH_RADIUS_IN_GRID * specF /
    Real.tan (Real.pi / 4 + REFERENCE_LATITUDE / 2) ^ specN

lemma lccN_eq_specN : lccN = specN := by
  unfold lccN specN
  rw [quarter_half, quarter_half]

lemma lccF_eq_specF : lccF = specF := by
  unfold lccF specF
  rw [quarter_half, lccN_eq_specN]

lemma lccRhoZero_eq_specRhoZero : lccRhoZero = specRhoZero := by
  unfold lccRhoZero specRhoZero
  rw [quarter_half, lccN_eq_specN, lccF_eq_specF]

/-- C4 counterexample: the conversion constant of the source,
`DEGREE_TO_RADIAN = 0.017453293`, is not the exact quotient `π/180`
(it exceeds it by about `4.8·10⁻¹⁰`), so the claim as stated is false. -/
theorem C4_counterexample_dtr_not_pi_div_180 : DEGREE_TO_RADIAN ≠ Real.pi / 180 := by
  intro h
  have hpi : Real.pi = 180 * DEGREE_TO_RADIAN := by rw [h]; ring
  have := Real.pi_lt_d20
  rw [hpi] at this
  norm_num [DEGREE_TO_RADIAN] at this

/-- C4 (amended): `get_constants` computes `(n, f, rho_zero)` by exactly the
stated formulas with SP1 = 30°, SP2 = 60°, RefLat = 38° converted to radians
using the literal constant `0.017453293` (a 9-decimal approximation of π/180,
not the exact quotient), and EarthRadius = 6371.00877 / 5. -/
theorem C4_constants_match_spec_formulas :
    LccConstants.get_constants.n = specN ∧
      LccConstants.get_constants.f = specF ∧
      LccConstants.get_constants.rho_zero = specRhoZero :=
  ⟨lccN_eq_specN, lccF_eq_specF, lccRhoZero_eq_specRhoZero⟩

/-! ## C7: single-step longitude normalization -/

/-- C7 counterexample: at the longitude whose raw offset is exactly `-π`
(namely `126 - π/DEGREE_TO_RADIAN`), the normalized theta is `-π`, which lies
outside the claimed half-open interval `(-π, π]`. -/
theorem C7_counterexample_raw_theta_neg_pi :
    thetaOf (126 - Real.pi / DEGREE_TO_RADIAN) = -Real.pi ∧
      ¬ (-Real.pi < thetaOf (126 - Real.pi / DEGREE_TO_RADIAN)) := by
  have hraw : rawTheta (126 - Real.pi / DEGREE_TO_RADIAN) = -Real.pi := by
    unfold rawTheta REFERENCE_LONGITUDE
    rw [sub_mul, div_mul_cancel₀ _ DTR_ne]
    ring
  have htheta : thetaOf (126 - Real.pi / DEGREE_TO_RADIAN) = -Real.pi := by
    unfold thetaOf
    rw [hraw, if_neg (by nlinarith [Real.pi_pos]), if_neg (lt_irrefl _)]
  exact ⟨htheta, by rw [htheta]; exact lt_irrefl _⟩

/-- C7 (amended): for every longitude whose raw offset lies within one full
turn (`raw_theta ∈ (-3π, 3π]`), the normalized theta lies in the closed
interval `[-π, π]` (the boundary `raw_theta = -π` is kept at `-π`, so the
interval is closed, not half-open), and it equals `raw_theta` adjusted by at
most one addition or subtraction of `2π`. -/
theorem C7_single_step_normalization (longitude : ℝ)
    (h1 : -(3 * Real.pi) < rawTheta longitude) (h2 : rawTheta longitude ≤ 3 * Real.pi) :
    (-Real.pi ≤ thetaOf longitude ∧ thetaOf longitude ≤ Real.pi) ∧
      (thetaOf longitude = rawTheta longitude ∨
        thetaOf longitude = rawTheta longitude - 2 * Real.pi ∨
        thetaOf longitude = rawTheta longitude + 2 * Real.pi) := by
  unfold thetaOf
  split_ifs with ha hb
  · exact ⟨⟨by linarith, by linarith⟩, Or.inr (Or.inl rfl)⟩
  · exact ⟨⟨by linarith, by linarith⟩, Or.inr (Or.inr rfl)⟩
  · push_neg at ha hb
    exact ⟨⟨hb, ha⟩, Or.inl rfl⟩

/-- Witness for C7: the amended statement applied at longitude 126, whose raw
offset 0 is inside one full turn. -/
theorem C7_witness :
    (-Real.pi ≤ thetaOf 126 ∧ thetaOf 126 ≤ Real.pi) ∧
      (thetaOf 126 = rawTheta 126 ∨
        thetaOf 126 = rawTheta 126 - 2 * Real.pi ∨
        thetaOf 126 = rawTheta 126 + 2 * Real.pi) :=
  C7_single_step_normalization 126
    (by rw [rawTheta_ref]; nlinarith [Real.pi_pos])
    (by rw [rawTheta_ref]; nlinarith [Real.pi_pos])

/-! ## C9: the constants derivation is well defined -/

/-- C9: `get_constants` is well-defined: `n` is nonzero (so the divisions by
`n` in both conversion paths are safe) and `f` and `rho_zero` are (strictly
positive) well-defined reals.  Finiteness/non-NaN is automatic in the
real-number model. -/
theorem C9_constants_well_defined :
    LccConstants.get_constants.n ≠ 0 ∧
      0 < LccConstants.get_constants.f ∧
      0 < LccConstants.get_constants.rho_zero :=
  ⟨lccN_ne, lccF_pos, lccRhoZero_pos⟩

/-! ## C10: the narrowing cast saturates -/

/-- C10: the modelled Rust `as u8` cast (applied after rounding) saturates:
negative values clamp to 0, values above 255 clamp to 255, and in-range values
are preserved — it never wraps modulo 256.  (NaN intermediates do not exist in
the real-number model; Rust defines `NaN as u8 = 0`, consistent with the
clamp-at-0 case.)  `from_gcs` applies exactly this cast to both rounded
coordinates, so it is total. -/
theorem C10_cast_saturating :
    (∀ z : ℤ, z < 0 → castU8 z = 0) ∧
      (∀ z : ℤ, 255 < z → castU8 z = 255) ∧
      (∀ z : ℤ, 0 ≤ z → z ≤ 255 → (castU8 z : ℤ) = z) := by
  refine ⟨fun z hz => ?_, fun z hz => ?_, fun z h0 h255 => ?_⟩
  · unfold castU8
    omega
  · unfold castU8
    omega
  · unfold castU8
    omega

/-- Witness for C10 at concrete inputs on each side of the clamp. -/
theorem C10_witness :
    castU8 (-7) = 0 ∧ castU8 300 = 255 ∧ (castU8 200 : ℤ) = 200 :=
  ⟨C10_cast_saturating.1 (-7) (by decide),
    C10_cast_saturating.2.1 300 (by decide),
    C10_cast_saturating.2.2 200 (by decide) (by decide)⟩

/-! ## C5 and C6: the forward projection saturates instead of validating -/

lemma castU8_le (z : ℤ) : castU8 z ≤ 255 := min_le_right _ _

lemma from_gcs_le_255 (longitude latitude : ℝ) :
    (KmaGrid.from_gcs longitude latitude).x ≤ 255 ∧
      (KmaGrid.from_gcs longitude latitude).y ≤ 255 := by
  rw [from_gcs_eval]
  exact ⟨castU8_le _, castU8_le _⟩

/-- C5 (amended): every grid coordinate produced by `from_gcs` satisfies the
saturation bounds `x ≤ 255` and `y ≤ 255` of the `u8` cast — but not the
grid's nominal index ranges `x ≤ 149`, `y ≤ 253` claimed by the spec. -/
theorem C5_outputs_saturated (longitude latitude : ℝ) :
    (KmaGrid.from_gcs longitude latitude).x ≤ 255 ∧
      (KmaGrid.from_gcs longitude latitude).y ≤ 255 :=
  from_gcs_le_255 longitude latitude

lemma rhoOf_zero : rhoOf 0 = EARTH_RADIUS_IN_GRID * lccF := by
  unfold rhoOf
  rw [show Real.pi * 0.25 + 0.5 * (0 : ℝ) * DEGREE_TO_RADIAN = Real.pi / 4 from by
    rw [show (0.25 : ℝ) = 1 / 4 from by norm_num]; ring]
  rw [Real.tan_pi_div_four, Real.one_rpow, div_one]

lemma thetaOf_180 : thetaOf 180 = 54 * DEGREE_TO_RADIAN := by
  have hraw : rawTheta 180 = 54 * DEGREE_TO_RADIAN := by
    unfold rawTheta REFERENCE_LONGITUDE
    ring
  unfold thetaOf
  rw [hraw]
  rw [if_neg (by norm_num [DEGREE_TO_RADIAN]; nlinarith [Real.pi_gt_d6]),
    if_neg (by norm_num [DEGREE_TO_RADIAN]; nlinarith [Real.pi_pos])]

lemma tanA1_rpow_ge : (1.3152 : ℝ) ≤ Real.tan (Real.pi / 4 + 15 * DEGREE_TO_RADIAN) ^ lccN := by
  have ht := tanA1_bounds.1
  have h1 : (1 : ℝ) ≤ Real.tan (Real.pi / 4 + 15 * DEGREE_TO_RADIAN) := by linarith
  have hhalf : Real.tan (Real.pi / 4 + 15 * DEGREE_TO_RADIAN) ^ ((1 : ℝ) / 2) ≤
      Real.tan (Real.pi / 4 + 15 * DEGREE_TO_RADIAN) ^ lccN :=
    Real.rpow_le_rpow_of_exponent_le h1 (le_of_lt half_lt_lccN)
  have hsqrt : (1.3152 : ℝ) ≤ Real.tan (Real.pi / 4 + 15 * DEGREE_TO_RADIAN) ^ ((1 : ℝ) / 2) := by
    rw [← Real.sqrt_eq_rpow]
    have hnn : (0 : ℝ) ≤ Real.tan (Real.pi / 4 + 15 * DEGREE_TO_RADIAN) := by linarith
    have hs2 := Real.sq_sqrt hnn
    have hsn := Real.sqrt_nonneg (Real.tan (Real.pi / 4 + 15 * DEGREE_TO_RADIAN))
    nlinarith [sq_nonneg (Real.sqrt (Real.tan (Real.pi / 4 + 15 * DEGREE_TO_RADIAN)) - 1.3152)]
  linarith

lemma lccF_ge : (1.1297 : ℝ) ≤ lccF := by
  unfold lccF
  rw [angleA1_eq]
  unfold STANDARD_PARALLEL1
  rw [le_div_iff₀ lccN_pos]
  have hprod : (1.3152 : ℝ) * 0.859 ≤
      Real.tan (Real.pi / 4 + 15 * DEGREE_TO_RADIAN) ^ lccN * Real.cos (30 * DEGREE_TO_RADIAN) := by
    apply mul_le_mul tanA1_rpow_ge cos_SP1_bounds.1 (by norm_num)
    linarith [tanA1_rpow_ge]
  nlinarith [lccN_lt_one, lccN_pos]

/-- C5 counterexample: the input `(longitude, latitude) = (180°, 0°)` projects
far outside the grid; the saturating cast clamps `x` to 255, violating the
claimed range `x ∈ [0, 149]`. -/
theorem C5_counterexample_x_exceeds_range : 149 < (KmaGrid.from_gcs 180 0).x := by
  rw [from_gcs_eval]
  show 149 < castU8 (rustRound (rhoOf 0 * Real.sin (thetaOf 180 * lccN) + (REFERENCE_X : ℝ)))
  rw [rhoOf_zero, thetaOf_180]
  set t := 54 * DEGREE_TO_RADIAN * lccN with ht
  have htlo : (0.471238911 : ℝ) < t := by
    rw [ht]
    norm_num [DEGREE_TO_RADIAN]
    nlinarith [half_lt_lccN]
  have hthi : t < 0.942477822 := by
    rw [ht]
    norm_num [DEGREE_TO_RADIAN]
    nlinarith [lccN_lt_one, lccN_pos]
  have hsin_base : (0.4512 : ℝ) ≤ Real.sin 0.471238911 := by
    have hb : (0.4512 : ℝ) ≤ Real.sin 0.471238911 ∧ Real.sin (0.471238911 : ℝ) ≤ 0.46 :=
      sin_between (by norm_num) (by norm_num) (by norm_num) (by norm_num)
    exact hb.1
  have hsin_mono : Real.sin 0.471238911 < Real.sin t := by
    apply Real.strictMonoOn_sin
    · constructor
      · nlinarith [Real.pi_pos]
      · nlinarith [Real.pi_gt_d6]
    · constructor
      · nlinarith [Real.pi_pos]
      · nlinarith [Real.pi_gt_d6]
    · exact htlo
  have hsin : (0.4512 : ℝ) ≤ Real.sin t := by linarith
  have hrho : (1439 : ℝ) ≤ EARTH_RADIUS_IN_GRID * lccF := by
    have : (1274.201754 : ℝ) * 1.1297 ≤ EARTH_RADIUS_IN_GRID * lccF := by
      apply mul_le_mul _ lccF_ge (by norm_num) (by linarith [ER_pos])
      norm_num [EARTH_RADIUS_IN_GRID, GRID_LENGTH]
    linarith
  have hv : (255 : ℝ) ≤ EARTH_RADIUS_IN_GRID * lccF * Real.sin t + (REFERENCE_X : ℝ) := by
    have hprod : (1439 : ℝ) * 0.4512 ≤ EARTH_RADIUS_IN_GRID * lccF * Real.sin t := by
      apply mul_le_mul hrho hsin (by norm_num)
      linarith
    norm_num [REFERENCE_X]
    nlinarith
  have hround : (255 : ℤ) ≤ rustRound (EARTH_RADIUS_IN_GRID * lccF * Real.sin t + (REFERENCE_X : ℝ)) := by
    unfold rustRound
    rw [if_pos (by norm_num [REFERENCE_X] at hv ⊢; nlinarith)]
    apply Int.le_floor.mpr
    push_cast
    linarith
  unfold castU8
  omega

/-- C6 counterexample: `from_gcs` has no error path — its return type is
`KmaGrid`, not a result type.  For the invalid latitude 95° it silently
returns a (saturated) grid cell instead of an `OutOfRange` rejection. -/
theorem C6_counterexample_invalid_latitude_silently_converted :
    ∃ g : KmaGrid, KmaGrid.from_gcs 126 95 = g ∧ g.x ≤ 255 ∧ g.y ≤ 255 :=
  ⟨KmaGrid.from_gcs 126 95, rfl, (from_gcs_le_255 126 95).1, (from_gcs_le_255 126 95).2⟩

/-- C6 (amended): the conversion performs no range validation and cannot
fail: for every input, including invalid latitudes above 90°, `from_gcs`
silently returns a grid coordinate whose components are clamped into
`[0, 255]` by the saturating cast; no error value is ever produced (the
explicit `OutOfRange` rejection is only a recommended policy in §7 of the
spec, not implemented by the code). -/
theorem C6_no_rejection_of_invalid_input (longitude latitude : ℝ) (_h : 90 < latitude) :
    (KmaGrid.from_gcs longitude latitude).x ≤ 255 ∧
      (KmaGrid.from_gcs longitude latitude).y ≤ 255 :=
  from_gcs_le_255 longitude latitude

/-- Witness for C6 at the spec's invalid-latitude scenario (126°, 95°). -/
theorem C6_witness :
    (KmaGrid.from_gcs 126 95).x ≤ 255 ∧ (KmaGrid.from_gcs 126 95).y ≤ 255 :=
  C6_no_rejection_of_invalid_input 126 95 (by norm_num)

/-! ## C2: the round trip at the reference point is broken -/

lemma to_gcs_fst (g : KmaGrid) :
    (KmaGrid.to_gcs g).1 =
      ((if |lccN| = 0 then 0
        else if |lccRhoZero - ((u8Sub g.y REFERENCE_Y : ℕ) : ℝ)| = 0 then Real.pi * 0.5
        else atan2 (lccRhoZero - ((u8Sub g.y REFERENCE_Y : ℕ) : ℝ))
          ((u8Sub g.x REFERENCE_X : ℕ) : ℝ)) / lccN + REFERENCE_LONGITUDE) *
        RADIAN_TO_DEGREE := rfl

lemma atan2_pos_left (y : ℝ) (hy : 0 < y) : atan2 y 0 = Real.pi / 2 := by
  unfold atan2
  exact Complex.arg_eq_pi_div_two_iff.mpr ⟨rfl, hy⟩

/-- C2: the round trip fails at the reference point.  `from_gcs(126, 38)` is
the reference cell `(43, 136)`, but `to_gcs` swaps the `atan2` arguments
(`yn.atan2(xn)` instead of the LCC inverse `xn.atan2(yn)`), so at the
reference cell it computes `theta = atan2(rho_zero, 0) = π/2` and returns
longitude `(π/2 / n + ref_lon)·(180/π) ≈ 251.8°`, far above 215° and nowhere
near the claimed 126°. -/
theorem C2_roundtrip_reference_broken :
    KmaGrid.from_gcs 126 38 = ⟨43, 136⟩ ∧ 215 < (KmaGrid.to_gcs ⟨43, 136⟩).1 := by
  refine ⟨from_gcs_ref, ?_⟩
  rw [to_gcs_fst]
  norm_num [u8Sub, REFERENCE_X, REFERENCE_Y]
  rw [if_neg (by simp [abs_eq_zero, lccN_ne]),
    if_neg lccRhoZero_pos.ne']
  rw [atan2_pos_left _ lccRhoZero_pos]
  have h1 : Real.pi / 2 < Real.pi / 2 / lccN := by
    have := div_lt_div_of_pos_left (by positivity : (0 : ℝ) < Real.pi / 2) lccN_pos lccN_lt_one
    rwa [div_one] at this
  have h2 : (1.570796 : ℝ) < Real.pi / 2 := by nlinarith [Real.pi_gt_d6]
  norm_num [REFERENCE_LONGITUDE, DEGREE_TO_RADIAN, RADIAN_TO_DEGREE]
  nlinarith

/-! ## C8: rho is not monotone over all of (-90°, 90°) -/

/-- C8 counterexample: because `DEGREE_TO_RADIAN = 0.017453293` slightly
exceeds `π/180`, for latitudes within about `2.5·10⁻⁶` degrees of `-90°` the
half-angle `π/4 + lat·DTR/2` drops below 0, the tangent turns negative and
`rho` flips sign: `rhoOf` is negative at `-89.99999999` but positive at the
larger latitude `-89.999`, so `rho` strictly increases between two valid
latitudes, contradicting the claimed strict decrease.  (In Rust the same
inputs make `powf` return NaN, which also falsifies the claimed strict
inequality.) -/
theorem C8_counterexample_rho_not_monotone :
    (-90 : ℝ) < -89.99999999 ∧ (-89.99999999 : ℝ) < -89.999 ∧ (-89.999 : ℝ) < 90 ∧
      rhoOf (-89.99999999) < rhoOf (-89.999) := by
  refine ⟨by norm_num, by norm_num, by norm_num, ?_⟩
  have hneg : rhoOf (-89.99999999) < 0 := by
    unfold rhoOf
    have ha_neg : Real.pi * 0.25 + 0.5 * (-89.99999999 : ℝ) * DEGREE_TO_RADIAN < 0 := by
      norm_num [DEGREE_TO_RADIAN]
      nlinarith [Real.pi_lt_d20]
    have ha_gt : -(Real.pi / 2) < Real.pi * 0.25 + 0.5 * (-89.99999999 : ℝ) * DEGREE_TO_RADIAN := by
      norm_num [DEGREE_TO_RADIAN]
      nlinarith [Real.pi_gt_d6]
    have htan_neg : Real.tan (Real.pi * 0.25 + 0.5 * (-89.99999999 : ℝ) * DEGREE_TO_RADIAN) < 0 :=
      Real.tan_neg_of_neg_of_pi_div_two_lt ha_neg ha_gt
    have hcos_neg : Real.cos (lccN * Real.pi) < 0 := by
      apply Real.cos_neg_of_pi_div_two_lt_of_lt
      · nlinarith [half_lt_lccN, Real.pi_pos]
      · nlinarith [lccN_lt_one, Real.pi_pos]
    have hrpow_neg :
        Real.tan (Real.pi * 0.25 + 0.5 * (-89.99999999 : ℝ) * DEGREE_TO_RADIAN) ^ lccN < 0 := by
      rw [Real.rpow_def_of_neg htan_neg]
      exact mul_neg_of_pos_of_neg (Real.exp_pos _) hcos_neg
    exact div_neg_of_pos_of_neg (mul_pos ER_pos lccF_pos) hrpow_neg
  have hpos : 0 < rhoOf (-89.999) := by
    unfold rhoOf
    have ha_pos : 0 < Real.pi * 0.25 + 0.5 * (-89.999 : ℝ) * DEGREE_TO_RADIAN := by
      norm_num [DEGREE_TO_RADIAN]
      nlinarith [Real.pi_gt_d6]
    have ha_lt : Real.pi * 0.25 + 0.5 * (-89.999 : ℝ) * DEGREE_TO_RADIAN < Real.pi / 2 := by
      norm_num [DEGREE_TO_RADIAN]
      nlinarith [Real.pi_pos]
    have htan_pos : 0 < Real.tan (Real.pi * 0.25 + 0.5 * (-89.999 : ℝ) * DEGREE_TO_RADIAN) :=
      Real.tan_pos_of_pos_of_lt_pi_div_two ha_pos ha_lt
    exact div_pos (mul_pos ER_pos lccF_pos) (Real.rpow_pos_of_pos htan_pos _)
  linarith

/-- C8 (amended): the intermediate radius `rho` of `from_gcs` is strictly
monotonically decreasing in latitude on the range where the half-angle
`π/4 + lat·DTR/2` stays inside the principal branch `(0, π/2)` — in
particular for all latitudes in `[-89.9999, 89.9999]`.  Within about
`2.5·10⁻⁶` degrees of `±90°` (still strictly inside `(-90°, 90°)`) the
approximation `DTR > π/180` pushes the half-angle out of the branch and the
claimed monotonicity fails. -/
theorem C8_rho_strictly_decreasing_on_principal_range (lat1 lat2 : ℝ)
    (h1 : -89.9999 ≤ lat1) (h12 : lat1 < lat2) (h2 : lat2 ≤ 89.9999) :
    rhoOf lat2 < rhoOf lat1 := by
  unfold rhoOf
  have hA1pos : 0 < Real.pi * 0.25 + 0.5 * lat1 * DEGREE_TO_RADIAN := by
    norm_num [DEGREE_TO_RADIAN]
    nlinarith [Real.pi_gt_d6]
  have hA2lt : Real.pi * 0.25 + 0.5 * lat2 * DEGREE_TO_RADIAN < Real.pi / 2 := by
    norm_num [DEGREE_TO_RADIAN]
    nlinarith [Real.pi_gt_d6]
  have hA12 : Real.pi * 0.25 + 0.5 * lat1 * DEGREE_TO_RADIAN <
      Real.pi * 0.25 + 0.5 * lat2 * DEGREE_TO_RADIAN := by
    norm_num [DEGREE_TO_RADIAN]
    nlinarith
  have htan12 : Real.tan (Real.pi * 0.25 + 0.5 * lat1 * DEGREE_TO_RADIAN) <
      Real.tan (Real.pi * 0.25 + 0.5 * lat2 * DEGREE_TO_RADIAN) :=
    Real.tan_lt_tan_of_nonneg_of_lt_pi_div_two (le_of_lt hA1pos) hA2lt hA12
  have htan1_pos : 0 < Real.tan (Real.pi * 0.25 + 0.5 * lat1 * DEGREE_TO_RADIAN) :=
    Real.tan_pos_of_pos_of_lt_pi_div_two hA1pos (lt_trans hA12 hA2lt)
  have hrpow : Real.tan (Real.pi * 0.25 + 0.5 * lat1 * DEGREE_TO_RADIAN) ^ lccN <
      Real.tan (Real.pi * 0.25 + 0.5 * lat2 * DEGREE_TO_RADIAN) ^ lccN :=
    Real.rpow_lt_rpow (le_of_lt htan1_pos) htan12 lccN_pos
  exact div_lt_div_of_pos_left (mul_pos ER_pos lccF_pos)
    (Real.rpow_pos_of_pos htan1_pos _) hrpow

/-- Witness for C8 (amended) at the latitudes 0° < 1°. -/
theorem C8_witness : rhoOf 1 < rhoOf 0 :=
  C8_rho_strictly_decreasing_on_principal_range 0 1 (by norm_num) (by norm_num) (by norm_num)
